import Mathlib

/-!
Verification of shell/common/platform_view_service_protocol.cc

A shallow embedding of the service-protocol request handlers. Request
parameters arrive as a possibly NULL array of keys together with an array
of values; each handler validates parameters and builds one JSON response
string. Responses are modelled as a pair of the C return value (Bool) and
the response string written through the json_object out-parameter; the
handlers whose C code can fail to terminate normally (an uncaught
exception, a null dereference) return Option, with none meaning that no
response string is ever produced.

External collaborators (the Shell view registry, the rasterizer, Skia
encoders, the C++ standard library) are not part of the source file; where
a claim depends on them they are modelled from the spec, and each such
definition carries a comment saying so. Literal brace characters inside
response strings are written with the \x7b and \x7d escapes.
-/

/-- The view-id string constant, with the typo of the source. -/
def kViewIdPrefx : String := "_flutterView/"

/-- Length in characters of kViewIdPrefx (sizeof minus the terminator). -/
def kViewIdPrefxLength : Nat := 13

/-- The loop body of KeyIndex: scan the key array from index i, returning
the index of the first key equal to the search key, or -1. -/
def KeyIndexLoop (key : String) : List String → Nat → Int
  | [], _ => -1
  | k :: rest, i => if k = key then Int.ofNat i else KeyIndexLoop key rest (i + 1)

/-- KeyIndex from the source: a NULL key array yields -1, otherwise the
first matching index is returned. The key array is modelled as
Option (List String), none standing for a NULL pointer. -/
def KeyIndex (param_keys : Option (List String)) (key : String) : Int :=
  match param_keys with
  | none => -1
  | some ks => KeyIndexLoop key ks 0

/-- ValueForKey from the source: look up the key index, return NULL for a
negative index, and param_values at that index otherwise. -/
def ValueForKey (param_keys : Option (List String)) (param_values : List String)
    (key : String) : Option String :=
  let index := KeyIndex param_keys key
  if index < 0 then none
  else param_values.get? index.toNat

/-- Response text of ErrorMissingParameter. -/
def MissingParameterJson (name : String) : String :=
  "\x7b\"code\":-32602,\"message\":\"Invalid params\",\"data\": \x7b\"details\": \""
    ++ name ++ "\"\x7d\x7d"

/-- ErrorMissingParameter: writes the response and returns false. -/
def ErrorMissingParameter (name : String) : Bool × String :=
  (false, MissingParameterJson name)

/-- Response text of ErrorBadParameter. -/
def BadParameterJson (name : String) (value : String) : String :=
  "\x7b\"code\":-32602,\"message\":\"Invalid params\",\"data\": \x7b\"details\": \"parameter: "
    ++ name ++ " has a bad value: " ++ value ++ "\"\x7d\x7d"

/-- ErrorBadParameter: writes the response and returns false. -/
def ErrorBadParameter (name : String) (value : String) : Bool × String :=
  (false, BadParameterJson name value)

/-- Response text of ErrorUnknownView. -/
def UnknownViewJson (view_id : String) : String :=
  "\x7b\"code\":-32602,\"message\":\"Invalid params\",\"data\": \x7b\"details\": \"view not found: "
    ++ view_id ++ "\"\x7d\x7d"

/-- ErrorUnknownView: writes the response and returns false. -/
def ErrorUnknownView (view_id : String) : Bool × String :=
  (false, UnknownViewJson view_id)

/-- Response text of ErrorServer. -/
def ServerErrorJson (message : String) : String :=
  "\x7b\"code\":-32000,\"message\":\"" ++ message ++ "\"\x7d"

/-- ErrorServer: writes the response and returns false. -/
def ErrorServer (message : String) : Bool × String :=
  (false, ServerErrorJson message)

/-- Lowercase hexadecimal digit character, as printed by std::hex. -/
def hexDigitChar (d : Nat) : Char :=
  if d < 10 then Char.ofNat (48 + d) else Char.ofNat (87 + d)

/-- Fuel-indexed hexadecimal digit list of a number, most significant digit
first; fuel n + 1 always suffices for n. -/
def hexCharsAux : Nat → Nat → List Char
  | 0, _ => []
  | fuel + 1, n =>
    if n < 16 then [hexDigitChar n]
    else hexCharsAux fuel (n / 16) ++ [hexDigitChar (n % 16)]

/-- Digits of n in base 16, as std::hex prints an unsigned value. -/
def hexChars (n : Nat) : List Char := hexCharsAux (n + 1) n

/-- Hexadecimal rendering of n, lowercase, no leading zeros, 0 printed as 0. -/
def hexString (n : Nat) : String := String.mk (hexChars n)

/-- ILLEGAL_PORT of the Dart embedder API: the zero port. -/
def ILLEGAL_PORT : Int := 0

/-- AppendIsolateRef from the source: the isolate reference object. -/
def AppendIsolateRef (main_port : Int) (name : String) : String :=
  "\x7b\"type\":\"@Isolate\",\"fixedId\":true,\"id\":\"isolates/" ++ toString main_port
    ++ "\",\"name\":\"" ++ name ++ "\",\"number\":\"" ++ toString main_port ++ "\"\x7d"

/-- AppendFlutterView from the source: the view descriptor object, with the
handle rendered in hexadecimal after the prefix and 0x, and the isolate
reference appended only when the isolate id differs from ILLEGAL_PORT. -/
def AppendFlutterView (view_id : Nat) (isolate_id : Int) (isolate_name : String) : String :=
  "\x7b\"type\":\"FlutterView\", \"id\": \"" ++ kViewIdPrefx ++ "0x" ++ hexString view_id
    ++ "\""
    ++ (if isolate_id ≠ ILLEGAL_PORT then ",\"isolate\":" ++ AppendIsolateRef isolate_id isolate_name
        else "")
    ++ "\x7d"

/-- The vector capture of one frame: its size and abstract draw content. -/
structure LayerTree where
  width : Nat
  height : Nat
  content : List Nat
deriving DecidableEq

/-- One live platform view as the handlers observe it: its handle (the
pointer value), the main port and name of its UI isolate, and the last
layer tree held by its rasterizer (none when no frame was rendered). -/
structure PlatformViewInfo where
  viewId : Nat
  mainPort : Int
  isolateName : String
  lastLayerTree : Option LayerTree
deriving DecidableEq

/-- The descriptor string ListViews emits for one view. -/
def viewDescriptor (v : PlatformViewInfo) : String :=
  AppendFlutterView v.viewId v.mainPort v.isolateName

/-- Modelled from the spec: the Shell view registry (shell.cc is not part
of the given source); a view handle resolves to the live view carrying it,
if any. -/
def resolveView (views : List PlatformViewInfo) (view_id : Nat) : Option PlatformViewInfo :=
  views.find? (fun v => v.viewId == view_id)

/-- Modelled from the spec: Shell::RunInPlatformView reports through its
out-parameters whether the referenced view exists and, when it does, the
main port and name of the isolate created in it. -/
def runInPlatformView (views : List PlatformViewInfo) (view_id : Nat) :
    Bool × Int × String :=
  match resolveView views view_id with
  | none => (false, ILLEGAL_PORT, "")
  | some v => (true, v.mainPort, v.isolateName)

/-- The strncmp prefix test of RunInView: true when view_id starts with
kViewIdPrefx. -/
def startsWithViewIdPrefx (view_id : String) : Bool :=
  kViewIdPrefx.data.isPrefixOf view_id.data

/-- Numeric value of one hexadecimal digit character. -/
def hexDigitVal (c : Char) : Nat :=
  if c.toNat ≥ 97 then c.toNat - 87
  else if c.toNat ≥ 65 then c.toNat - 55
  else c.toNat - 48

/-- Accumulating base-16 evaluation of a digit list. -/
def hexFold (acc : Nat) : List Char → Nat
  | [] => acc
  | c :: cs => hexFold (acc * 16 + hexDigitVal c) cs

/-- Whether c is a hexadecimal digit. -/
def isHexDigit (c : Char) : Bool :=
  (48 ≤ c.toNat && c.toNat ≤ 57) || (97 ≤ c.toNat && c.toNat ≤ 102)
    || (65 ≤ c.toNat && c.toNat ≤ 70)

/-- ULLONG_MAX + 1, the overflow bound of std::stoull. -/
def stoullBound : Nat := 18446744073709551616

/-- Result of a completed std::stoull parse: out_of_range past ULLONG_MAX
(none), and a leading minus sign negates modulo 2 to the 64. -/
def finalizeStoull (neg : Bool) (v : Nat) : Option Nat :=
  if v ≥ stoullBound then none
  else if neg then some ((stoullBound - v) % stoullBound)
  else some v

/-- Parse a run of hexadecimal digits; none when the run is empty, which
std::stoull reports by throwing std::invalid_argument. -/
def parseHexRun (neg : Bool) (cs : List Char) : Option Nat :=
  let digits := cs.takeWhile isHexDigit
  if digits.isEmpty then none
  else finalizeStoull neg (hexFold 0 digits)

/-- Modelled from the spec and the C++ standard library: std::stoull with
base 16 and a null position pointer. Leading whitespace is skipped, one
sign character and one 0x or 0X marker are accepted, and the longest run
of hexadecimal digits is converted. none models a thrown exception
(std::invalid_argument when no digits can be converted, std::out_of_range
past ULLONG_MAX): the exception is not caught anywhere in the source, so
no response is produced. A bare 0x with no digit after it converts the
initial 0 alone. -/
def stoullHex (s : String) : Option Nat :=
  let cs := s.data.dropWhile Char.isWhitespace
  let signRest : Bool × List Char :=
    match cs with
    | '-' :: rest => (true, rest)
    | '+' :: rest => (false, rest)
    | rest => (false, rest)
  let neg := signRest.1
  match signRest.2 with
  | '0' :: 'x' :: rest =>
    if (rest.takeWhile isHexDigit).isEmpty then finalizeStoull neg 0
    else parseHexRun neg rest
  | '0' :: 'X' :: rest =>
    if (rest.takeWhile isHexDigit).isEmpty then finalizeStoull neg 0
    else parseHexRun neg rest
  | rest => parseHexRun neg rest

/-- The success response of RunInView. -/
def SuccessJson (view_id_as_num : Nat) (main_port : Int) (isolate_name : String) : String :=
  "\x7b\"type\":\"Success\",\"view\":"
    ++ AppendFlutterView view_id_as_num main_port isolate_name ++ "\x7d"

/-- The if/else over view_existed that ends RunInView. some r means a
return statement inside the branch produced result r; none would mean
execution fell through the branch to the trailing return true. -/
def RunInViewTail (view_existed : Bool) (view_id : String) (view_id_as_num : Nat)
    (main_port : Int) (isolate_name : String) : Option (Bool × String) :=
  if view_existed = false then some (ErrorUnknownView view_id)
  else some (true, SuccessJson view_id_as_num main_port isolate_name)

/-- RunInView from the source. The result none models an execution in
which no response string is produced because std::stoull threw an uncaught
exception. The none arm of the match on RunInViewTail is the trailing
return true statement of the source, which leaves json_object unset. -/
def RunInView (views : List PlatformViewInfo) (param_keys : Option (List String))
    (param_values : List String) : Option (Bool × String) :=
  match ValueForKey param_keys param_values "viewId" with
  | none => some (ErrorMissingParameter "viewId")
  | some view_id =>
    if startsWithViewIdPrefx view_id = false then
      some (ErrorBadParameter "viewId" view_id)
    else
      match ValueForKey param_keys param_values "assetDirectory" with
      | none => some (ErrorMissingParameter "assetDirectory")
      | some _asset_directory =>
        match ValueForKey param_keys param_values "mainScript" with
        | none => some (ErrorMissingParameter "mainScript")
        | some _main_script =>
          match ValueForKey param_keys param_values "packagesFile" with
          | none => some (ErrorMissingParameter "packagesFile")
          | some _packages_file =>
            match stoullHex (String.mk (view_id.data.drop kViewIdPrefxLength)) with
            | none => none
            | some view_id_as_num =>
              let r := runInPlatformView views view_id_as_num
              match RunInViewTail r.1 view_id view_id_as_num r.2.1 r.2.2 with
              | some result => some result
              | none => some (true, "")

/-- The IteratePlatformViews loop of ListViews: append each descriptor,
preceded by a comma for every view after the first. -/
def ListViewsLoop (views : List PlatformViewInfo) (response : String)
    (prefixComma : Bool) : String :=
  match views with
  | [] => response
  | v :: rest =>
    if prefixComma then ListViewsLoop rest (response ++ "," ++ viewDescriptor v) true
    else ListViewsLoop rest (response ++ viewDescriptor v) true

/-- ListViews from the source: the fixed envelope around the iterated
descriptors. -/
def ListViews (views : List PlatformViewInfo) : Bool × String :=
  (true, ListViewsLoop views "\x7b\"type\":\"FlutterViewList\",\"views\":[" false ++ "]\x7d")

/-- Comma-separated concatenation of a list of strings. -/
def commaSeparated : List String → String
  | [] => ""
  | s :: rest =>
    match rest with
    | [] => s
    | _ :: _ => s ++ "," ++ commaSeparated rest

/-- Concatenation of strings, each preceded by a comma. -/
def commaPrefixedAll : List String → String
  | [] => ""
  | s :: rest => "," ++ s ++ commaPrefixedAll rest

/-- An SkBitmap as the screenshot path uses it: a default-constructed
bitmap is unallocated; tryAllocN32Pixels allocates it to the frame size. -/
structure SkBitmap where
  allocated : Bool
  width : Nat
  height : Nat
  pixels : List Nat
deriving DecidableEq

/-- The default-constructed, unallocated bitmap. -/
def emptyBitmap : SkBitmap := ⟨false, 0, 0, []⟩

/-- GetRandomRasterizer from the source: IteratePlatformViews stops after
the first view, so the first view owns the rasterizer used, and a null
weak pointer results when there is no view. -/
def GetRandomRasterizer (views : List PlatformViewInfo) : Option PlatformViewInfo :=
  views.head?

/-- Modelled from the spec: rastering the last layer tree into freshly
allocated pixels; the pixel content itself is abstract. -/
def rasterToBitmap (lt : LayerTree) : SkBitmap :=
  ⟨true, lt.width, lt.height, lt.content⟩

/-- ScreenshotGpuTask from the source: with no rasterizer or no last layer
tree the early returns leave the bitmap unallocated; otherwise the frame
is rastered into it. -/
def ScreenshotGpuTask (views : List PlatformViewInfo) : SkBitmap :=
  match GetRandomRasterizer views with
  | none => emptyBitmap
  | some v =>
    match v.lastLayerTree with
    | none => emptyBitmap
    | some lt => rasterToBitmap lt

/-- Modelled from the spec: the PNG blob of an allocated bitmap, abstract. -/
def pngBytes (b : SkBitmap) : List Nat := b.width :: b.height :: b.pixels

/-- Modelled from the spec: SkEncodeBitmap returns no data for an
unallocated bitmap (encoding fails) and a PNG blob otherwise. -/
def EncodeBitmapAsPNG (b : SkBitmap) : Option (List Nat) :=
  if b.allocated = false then none else some (pngBytes b)

/-- The base64 alphabet of SkBase64. -/
def base64Alphabet : List Char :=
  "ABCDEFGHIJKLMNOPQRSTUVWXYZabcdefghijklmnopqrstuvwxyz0123456789+/".data

/-- One base64 output character. -/
def base64Char (n : Nat) : Char := base64Alphabet.getD n '='

/-- SkBase64 encoding of a byte list, three bytes to four characters, with
equals-sign padding. -/
def base64Aux : List Nat → List Char
  | [] => []
  | [a] => [base64Char (a / 4), base64Char (a % 4 * 16), '=', '=']
  | [a, b] => [base64Char (a / 4), base64Char (a % 4 * 16 + b / 16), base64Char (b % 16 * 4), '=']
  | a :: b :: c :: rest =>
    base64Char (a / 4) :: base64Char (a % 4 * 16 + b / 16)
      :: base64Char (b % 16 * 4 + c / 64) :: base64Char (c % 64) :: base64Aux rest

/-- Base64 string of a byte list. -/
def base64Encode (bytes : List Nat) : String := String.mk (base64Aux bytes)

/-- Screenshot from the source: raster the last frame on the GPU thread,
encode it as PNG, and answer with the base64 payload, or with ErrorServer
when encoding produced no data. -/
def Screenshot (views : List PlatformViewInfo) : Bool × String :=
  match EncodeBitmapAsPNG (ScreenshotGpuTask views) with
  | none => ErrorServer "can not encode screenshot"
  | some png =>
    (true, "\x7b\"type\":\"Screenshot\",\"screenshot\":\"" ++ base64Encode png ++ "\"\x7d")

/-- ScreenshotSkpGpuTask from the source: a null picture when there is no
rasterizer or no last layer tree, otherwise the recorded vector capture of
the last frame. -/
def ScreenshotSkpGpuTask (views : List PlatformViewInfo) : Option LayerTree :=
  match GetRandomRasterizer views with
  | none => none
  | some v =>
    match v.lastLayerTree with
    | none => none
    | some lt => some lt

/-- Modelled from the spec: the serialized bytes of a vector capture,
abstract. -/
def serializePicture (lt : LayerTree) : List Nat := lt.width :: lt.height :: lt.content

/-- ScreenshotSkp from the source. The handler calls serialize through the
picture pointer without a null check, so with a null picture it
dereferences null: none models that crash, in which no response string is
produced. -/
def ScreenshotSkp (views : List PlatformViewInfo) : Option (Bool × String) :=
  match ScreenshotSkpGpuTask views with
  | none => none
  | some p =>
    some (true, "\x7b\"type\":\"ScreenshotSkp\",\"skp\":\""
      ++ base64Encode (serializePicture p) ++ "\"\x7d")

/-- FlushUIThreadTasks from the source: after the UI-thread rendezvous the
fixed success object is written. -/
def FlushUIThreadTasks : Bool × String := (true, "\x7b\"type\":\"Success\"\x7d")

/-- Extension name constant from the source. -/
def kRunInViewExtensionName : String := "_flutter.runInView"

/-- Extension name constant from the source. -/
def kListViewsExtensionName : String := "_flutter.listViews"

/-- Extension name constant from the source. -/
def kScreenshotExtensionName : String := "_flutter.screenshot"

/-- Extension name constant from the source. -/
def kScreenshotSkpExtensionName : String := "_flutter.screenshotSkp"

/-- Extension name constant from the source. -/
def kFlushUIThreadTasksExtensionName : String := "_flutter.flushUIThreadTasks"

/-- RegisterHook from the source: the names registered with the Dart
service, in registration order; the early return skips the two debug-only
handlers when running precompiled code. -/
def RegisterHook (running_precompiled_code : Bool) : List String :=
  let always := [kListViewsExtensionName, kScreenshotExtensionName, kScreenshotSkpExtensionName]
  if running_precompiled_code then always
  else always ++ [kRunInViewExtensionName, kFlushUIThreadTasksExtensionName]

/-- The first required parameter of runScript, in the check order of the
source, whose lookup fails; packagesFile when the first three are present.
Stated from the amended claim wording for comparison with RunInView. -/
def firstMissingParam (param_keys : Option (List String)) (param_values : List String) : String :=
  if ValueForKey param_keys param_values "viewId" = none then "viewId"
  else if ValueForKey param_keys param_values "assetDirectory" = none then "assetDirectory"
  else if ValueForKey param_keys param_values "mainScript" = none then "mainScript"
  else "packagesFile"

theorem hexDigitVal_hexDigitChar (d : Nat) (h : d < 16) :
    hexDigitVal (hexDigitChar d) = d := by
  interval_cases d <;> decide

theorem hexFold_append (l1 l2 : List Char) : ∀ acc,
    hexFold acc (l1 ++ l2) = hexFold (hexFold acc l1) l2 := by
  induction l1 with
  | nil => intro acc; rfl
  | cons c cs ih => intro acc; simp [hexFold, ih]

theorem hexFold_hexCharsAux (fuel : Nat) : ∀ n acc, n < fuel →
    hexFold acc (hexCharsAux fuel n) = acc * 16 ^ (hexCharsAux fuel n).length + n := by
  induction fuel with
  | zero => intro n acc h; exact absurd h (Nat.not_lt_zero n)
  | succ f ih =>
    intro n acc h
    by_cases h16 : n < 16
    · simp [hexCharsAux, h16, hexFold, hexDigitVal_hexDigitChar n h16]
    · have hpos : 0 < n := by omega
      have hdiv : n / 16 < n := Nat.div_lt_self hpos (by omega)
      have hlt : n / 16 < f := by omega
      have ihd := ih (n / 16) acc hlt
      simp only [hexCharsAux, h16, if_false, hexFold_append, ihd, hexFold,
        hexDigitVal_hexDigitChar (n % 16) (Nat.mod_lt n (by omega)),
        List.length_append, List.length_singleton]
      have hmod : 16 * (n / 16) + n % 16 = n := Nat.div_add_mod n 16
      have hpow : 16 ^ ((hexCharsAux f (n / 16)).length + 1)
          = 16 ^ (hexCharsAux f (n / 16)).length * 16 := by ring
      rw [hpow]
      nlinarith [hmod]

theorem hexFold_hexChars (n : Nat) : hexFold 0 (hexChars n) = n := by
  have := hexFold_hexCharsAux (n + 1) n 0 (Nat.lt_succ_self n)
  simpa [hexChars] using this

theorem ListViewsLoop_true (vs : List PlatformViewInfo) : ∀ resp,
    ListViewsLoop vs resp true = resp ++ commaPrefixedAll (vs.map viewDescriptor) := by
  induction vs with
  | nil => intro resp; simp [ListViewsLoop, commaPrefixedAll, String.append_empty]
  | cons v rest ih =>
    intro resp
    simp [ListViewsLoop, commaPrefixedAll, ih, String.append_assoc]

theorem commaSeparated_cons (l : List String) : ∀ s,
    commaSeparated (s :: l) = s ++ commaPrefixedAll l := by
  induction l with
  | nil => intro s; simp [commaSeparated, commaPrefixedAll, String.append_empty]
  | cons t r ih =>
    intro s
    rw [show commaSeparated (s :: t :: r) = s ++ "," ++ commaSeparated (t :: r) from rfl,
      ih t]
    simp [commaPrefixedAll, String.append_assoc]

theorem ListViewsLoop_false (vs : List PlatformViewInfo) (resp : String) :
    ListViewsLoop vs resp false = resp ++ commaSeparated (vs.map viewDescriptor) := by
  cases vs with
  | nil => simp [ListViewsLoop, commaSeparated, String.append_empty]
  | cons v rest =>
    simp [ListViewsLoop, ListViewsLoop_true, commaSeparated_cons, String.append_assoc]

/-- Claim C9: the if/else over view_existed at the end of RunInView always
returns inside its branches, so execution never falls through to the
trailing return true: for every call reaching the branch exactly one
response is produced, and the final statement is dead code (the none arm
of the match in RunInView never contributes to the result). -/
theorem runInView_trailing_return_dead (view_existed : Bool) (view_id : String)
    (view_id_as_num : Nat) (main_port : Int) (isolate_name : String) :
    (RunInViewTail view_existed view_id view_id_as_num main_port isolate_name).isSome = true
    ∧ (match RunInViewTail view_existed view_id view_id_as_num main_port isolate_name with
       | some result => some result
       | none => some (true, ""))
      = RunInViewTail view_existed view_id view_id_as_num main_port isolate_name := by
  cases view_existed <;> simp [RunInViewTail]

/-- Claim C5: for every runScript call whose viewId parameter is present
but does not begin with the prefix "_flutterView/", the response is the
BadParameter error (code -32602) whose details echo both the parameter
name viewId and the bad value, and the handler returns false. -/
theorem runScript_bad_view_id (views : List PlatformViewInfo)
    (param_keys : Option (List String)) (param_values : List String) (vid : String)
    (hvid : ValueForKey param_keys param_values "viewId" = some vid)
    (hpre : startsWithViewIdPrefx vid = false) :
    RunInView views param_keys param_values = some (false, BadParameterJson "viewId" vid) := by
  simp [RunInView, hvid, hpre, ErrorBadParameter]

/-- Witness for C5 at a concrete call. -/
theorem runScript_bad_view_id_witness :
    RunInView [] (some ["viewId"]) ["nope"] = some (false, BadParameterJson "viewId" "nope") :=
  runScript_bad_view_id [] (some ["viewId"]) ["nope"] "nope" (by decide) (by decide)

/-- Claim C6: for every runScript call whose viewId carries the
"_flutterView/" prefix and parses to a handle that resolves to no live
view (the shell reports view_existed false), the response is the
UnknownView error (code -32602, details view not found followed by the
viewId), and the handler returns false. -/
theorem runScript_unknown_view (views : List PlatformViewInfo)
    (param_keys : Option (List String)) (param_values : List String) (vid : String) (n : Nat)
    (hvid : ValueForKey param_keys param_values "viewId" = some vid)
    (hpre : startsWithViewIdPrefx vid = true)
    (had : ∃ a, ValueForKey param_keys param_values "assetDirectory" = some a)
    (hms : ∃ m, ValueForKey param_keys param_values "mainScript" = some m)
    (hpf : ∃ p, ValueForKey param_keys param_values "packagesFile" = some p)
    (hnum : stoullHex (String.mk (vid.data.drop kViewIdPrefxLength)) = some n)
    (hview : resolveView views n = none) :
    RunInView views param_keys param_values = some (false, UnknownViewJson vid) := by
  obtain ⟨a, ha⟩ := had
  obtain ⟨m, hm⟩ := hms
  obtain ⟨p, hp⟩ := hpf
  simp [RunInView, hvid, hpre, ha, hm, hp, hnum, runInPlatformView, hview,
    RunInViewTail, ErrorUnknownView]

/-- Witness for C6 at a concrete call with an empty view registry. -/
theorem runScript_unknown_view_witness :
    RunInView [] (some ["viewId", "assetDirectory", "mainScript", "packagesFile"])
      ["_flutterView/1", "a", "m", "p"] = some (false, UnknownViewJson "_flutterView/1") :=
  runScript_unknown_view [] (some ["viewId", "assetDirectory", "mainScript", "packagesFile"])
    ["_flutterView/1", "a", "m", "p"] "_flutterView/1" 1 (by decide) (by decide)
    ⟨"a", by decide⟩ ⟨"m", by decide⟩ ⟨"p", by decide⟩ (by decide) (by decide)

/-- Claim C1, amended: for every runScript call in which any of the four
required parameters (viewId, assetDirectory, mainScript, packagesFile) is
missing and in which viewId, when present, begins with "_flutterView/",
the response is a MissingParameter error (code -32602, message Invalid
params) whose details field names the first missing parameter in the check
order viewId, assetDirectory, mainScript, packagesFile, and the handler
returns false. -/
theorem runScript_missing_parameter (views : List PlatformViewInfo)
    (param_keys : Option (List String)) (param_values : List String)
    (hmiss : ValueForKey param_keys param_values "viewId" = none
      ∨ ValueForKey param_keys param_values "assetDirectory" = none
      ∨ ValueForKey param_keys param_values "mainScript" = none
      ∨ ValueForKey param_keys param_values "packagesFile" = none)
    (hpre : ∀ vid, ValueForKey param_keys param_values "viewId" = some vid →
      startsWithViewIdPrefx vid = true) :
    RunInView views param_keys param_values
      = some (false, MissingParameterJson (firstMissingParam param_keys param_values)) := by
  cases h1 : ValueForKey param_keys param_values "viewId" with
  | none => simp [RunInView, firstMissingParam, h1, ErrorMissingParameter]
  | some vid =>
    have hp := hpre vid h1
    cases h2 : ValueForKey param_keys param_values "assetDirectory" with
    | none => simp [RunInView, firstMissingParam, h1, h2, hp, ErrorMissingParameter]
    | some a =>
      cases h3 : ValueForKey param_keys param_values "mainScript" with
      | none => simp [RunInView, firstMissingParam, h1, h2, h3, hp, ErrorMissingParameter]
      | some m =>
        cases h4 : ValueForKey param_keys param_values "packagesFile" with
        | none => simp [RunInView, firstMissingParam, h1, h2, h3, h4, hp, ErrorMissingParameter]
        | some p => simp [h1, h2, h3, h4] at hmiss

/-- Witness for C1 at the call with an empty parameter list. -/
theorem runScript_missing_parameter_witness :
    RunInView [] (some []) [] = some (false, MissingParameterJson "viewId") := by
  have h := runScript_missing_parameter [] (some []) [] (Or.inl (by decide))
    (fun vid hv => by simp [ValueForKey, KeyIndex, KeyIndexLoop] at hv)
  have hf : firstMissingParam (some []) [] = "viewId" := by decide
  rw [hf] at h
  exact h

/-- Counterexample to C1 as stated: in the call whose only parameter is
viewId with value z, the required parameter assetDirectory is missing from
the parameter list, yet the response is the BadParameter error echoing
viewId and z, which differs from every MissingParameter response. -/
theorem runScript_missing_parameter_counterexample :
    RunInView [] (some ["viewId"]) ["z"] = some (false, BadParameterJson "viewId" "z")
    ∧ ValueForKey (some ["viewId"]) ["z"] "assetDirectory" = none
    ∧ BadParameterJson "viewId" "z" ≠ MissingParameterJson "viewId"
    ∧ BadParameterJson "viewId" "z" ≠ MissingParameterJson "assetDirectory"
    ∧ BadParameterJson "viewId" "z" ≠ MissingParameterJson "mainScript"
    ∧ BadParameterJson "viewId" "z" ≠ MissingParameterJson "packagesFile" :=
  ⟨by decide, by decide, by decide, by decide, by decide, by decide⟩

/-- Claim C2, code bug evidence: with all four required parameters present
and a viewId that carries the "_flutterView/" prefix but whose suffix is
empty or not a valid hexadecimal number, std::stoull throws an uncaught
exception, so the handler produces no response at all, contradicting the
claim that every malformed viewId value yields an error response. -/
theorem runScript_malformed_view_id_no_response :
    RunInView [] (some ["viewId", "assetDirectory", "mainScript", "packagesFile"])
      ["_flutterView/", "a", "m", "p"] = none
    ∧ RunInView [⟨1, 7, "main", none⟩]
      (some ["viewId", "assetDirectory", "mainScript", "packagesFile"])
      ["_flutterView/zz", "a", "m", "p"] = none :=
  ⟨by decide, by decide⟩

/-- Claim C3, code bug evidence: in the engine state with no view (hence
no rasterizer), and in the state whose first view has no last layer tree,
ScreenshotSkpGpuTask yields a null picture and the handler calls serialize
through the null pointer, crashing without writing any response,
contradicting the claim that the handler never crashes and always writes a
success response. -/
theorem screenshotSkp_null_picture_no_response :
    ScreenshotSkp [] = none ∧ ScreenshotSkp [⟨1, 7, "main", none⟩] = none :=
  ⟨rfl, rfl⟩

/-- Claim C4: for every screenshot call made when no view exists, or when
the first view has no last layer tree, the bitmap stays unallocated and
PNG encoding fails, and the handler returns the ServerError response with
numeric code -32000 and message can not encode screenshot, with return
value false, rather than crashing. -/
theorem screenshot_no_view_server_error (views : List PlatformViewInfo)
    (h : views = [] ∨ ∃ v rest, views = v :: rest ∧ v.lastLayerTree = none) :
    Screenshot views
      = (false, "\x7b\"code\":-32000,\"message\":\"can not encode screenshot\"\x7d") := by
  rcases h with h | ⟨v, rest, hv, hlt⟩
  · subst h; rfl
  · subst hv
    simp [Screenshot, ScreenshotGpuTask, GetRandomRasterizer, hlt, EncodeBitmapAsPNG,
      emptyBitmap, ErrorServer, ServerErrorJson]

/-- Witness for C4 at the engine state with no views. -/
theorem screenshot_no_view_server_error_witness :
    Screenshot [] = (false, "\x7b\"code\":-32000,\"message\":\"can not encode screenshot\"\x7d") :=
  screenshot_no_view_server_error [] (Or.inl rfl)

/-- Claim C8: when RegisterHook runs with running_precompiled_code true,
only the listViews, screenshot and screenshotSkp handlers are registered
and the debug-only runInView and flushUIThreadTasks handlers are not; with
running_precompiled_code false all five handlers are registered. -/
theorem registerHook_debug_only_handlers :
    RegisterHook true
      = [kListViewsExtensionName, kScreenshotExtensionName, kScreenshotSkpExtensionName]
    ∧ RegisterHook false
      = [kListViewsExtensionName, kScreenshotExtensionName, kScreenshotSkpExtensionName,
          kRunInViewExtensionName, kFlushUIThreadTasksExtensionName]
    ∧ (RegisterHook true).contains kRunInViewExtensionName = false
    ∧ (RegisterHook true).contains kFlushUIThreadTasksExtensionName = false
    ∧ (RegisterHook false).contains kRunInViewExtensionName = true
    ∧ (RegisterHook false).contains kFlushUIThreadTasksExtensionName = true :=
  ⟨rfl, rfl, by decide, by decide, by decide, by decide⟩

/-- Claim C7: for every listViews call with N active views the response is
the fixed FlutterViewList envelope holding exactly N view descriptors
separated by commas, each descriptor rendering its view handle in
hexadecimal after the prefix _flutterView/0x, and the hexadecimal
rendering is correct in that folding its digits back in base 16 recovers
the handle; with zero active views the views array is empty. -/
theorem listViews_envelope (views : List PlatformViewInfo) :
    ListViews views
      = (true, "\x7b\"type\":\"FlutterViewList\",\"views\":["
          ++ commaSeparated (views.map viewDescriptor) ++ "]\x7d")
    ∧ (views.map viewDescriptor).length = views.length
    ∧ (∀ v : PlatformViewInfo,
        viewDescriptor v
          = "\x7b\"type\":\"FlutterView\", \"id\": \"_flutterView/0x" ++ hexString v.viewId
            ++ "\""
            ++ (if v.mainPort ≠ 0 then
                  ",\"isolate\":" ++ AppendIsolateRef v.mainPort v.isolateName
                else "")
            ++ "\x7d")
    ∧ ListViews [] = (true, "\x7b\"type\":\"FlutterViewList\",\"views\":[]\x7d")
    ∧ (∀ n : Nat, hexFold 0 (hexChars n) = n) := by
  refine ⟨?_, by simp, ?_, rfl, hexFold_hexChars⟩
  · simp [ListViews, ListViewsLoop_false, String.append_assoc]
  · intro v
    rfl

theorem KeyIndexLoop_not_found (key : String) :
    ∀ ks i, (∀ x ∈ ks, x ≠ key) → KeyIndexLoop key ks i = -1 := by
  intro ks
  induction ks with
  | nil => intro i _; rfl
  | cons k rest ih =>
    intro i h
    have hk : k ≠ key := h k (by simp)
    simp only [KeyIndexLoop, hk, if_false]
    exact ih (i + 1) (fun x hx => h x (by simp [hx]))

theorem KeyIndexLoop_found (key : String) :
    ∀ ks n i, ks.get? n = some key → (∀ j, j < n → ks.get? j ≠ some key) →
      KeyIndexLoop key ks i = Int.ofNat (i + n) := by
  intro ks
  induction ks with
  | nil => intro n i h _; simp at h
  | cons k rest ih =>
    intro n i h hmin
    by_cases hk : k = key
    · have hn : n = 0 := by
        by_contra hne
        exact hmin 0 (Nat.pos_of_ne_zero hne) (by simpa using congrArg some hk)
      subst hn
      simp [KeyIndexLoop, hk]
    · cases n with
      | zero =>
        simp only [List.get?] at h
        exact absurd (Option.some.inj h) hk
      | succ m =>
        simp only [KeyIndexLoop, hk, if_false]
        have hrest := ih m (i + 1) (by simpa using h)
          (fun j hj => by simpa using hmin (j + 1) (by omega))
        rw [hrest]
        congr 1
        omega

/-- Claim C10: parameter lookup is first-match and total: a NULL key array
yields NULL, a key equal to no entry of the key array yields NULL, and a
key whose first occurrence in the key array is at index i yields
param_values at index i, so a request with duplicate keys resolves to the
first occurrence. -/
theorem valueForKey_first_match :
    (∀ param_values key, ValueForKey none param_values key = none)
    ∧ (∀ ks param_values key, (∀ x, x ∈ ks → x ≠ key) →
        ValueForKey (some ks) param_values key = none)
    ∧ (∀ ks param_values key n, ks.get? n = some key →
        (∀ j, j < n → ks.get? j ≠ some key) →
        ValueForKey (some ks) param_values key = param_values.get? n) := by
  refine ⟨fun _ _ => rfl, ?_, ?_⟩
  · intro ks vals key h
    simp [ValueForKey, KeyIndex, KeyIndexLoop_not_found key ks 0 h]
  · intro ks vals key n h hmin
    have hl := KeyIndexLoop_found key ks n 0 h hmin
    simp only [ValueForKey, KeyIndex, hl]
    have hn0 : ¬ (Int.ofNat (0 + n) < 0) := Int.not_lt.mpr (Int.ofNat_nonneg _)
    simp [hn0]

/-- Witness for C10: a duplicate key resolves to its first occurrence. -/
theorem valueForKey_first_match_witness :
    ValueForKey (some ["a", "k", "k"]) ["1", "2", "3"] "k" = some "2" := by
  have h := valueForKey_first_match.2.2 ["a", "k", "k"] ["1", "2", "3"] "k" 1 (by decide)
    (fun j hj => by
      have hj0 : j = 0 := by omega
      subst hj0
      decide)
  simpa using h
